import Mathlib

/-!
# Verification of `uni2ts.data.builder.simple_polars`

Shallow embedding of `src/uni2ts/data/builder/simple_polars.py`.

Modelling conventions:

* Python floats are modelled as rationals (`ℚ`); the only float arithmetic the
  module performs is `rows * offset`, `rows * end` followed by `int(...)`,
  which for the non-negative products arising here is the floor.
* A polars row is modelled as a lookup from column name to the column's value
  for that row: `none` is a null cell, `some xs` a list-valued cell (both the
  timestamp column and the value columns are list-valued; values are floats).
* `pl.concat_list` over the `pl.when(c.is_not_null()).then(c)` columns keeps
  the non-null columns' lists, in column order, and drops the null ones
  (spec §3: "null columns are excluded, not zero-filled").
* `np.array(...).reshape((r, -1))` infers the second dimension: it succeeds
  iff `r ≠ 0` and `r` divides the flat size, and fails (raises) otherwise;
  we model it as an `Option`.
* A raising Python generator is modelled as `Except String`: a generator
  run either produces the full list of yielded records or stops with the
  first error.
* The multi-process materialisation (`num_proc`) is modelled sequentially:
  record order within a file is preserved, which is all the spec promises.
* Disk side effects (`save_to_disk`) are modelled by returning the written
  artifact (`SavedDataset`: its path, its `info.dataset_name` tag and its
  records) as a value.
* The `item_id` field (a debug string interpolating the shard path and the
  raw row) is omitted from the record model; no claim concerns it.
-/

/-- A polars row: column name ↦ cell value (`none` = null cell,
`some xs` = list-valued cell). -/
def Row : Type := String → Option (List ℚ)

/-- One source parquet file (a shard), as its list of rows. -/
abbrev Shard := List Row

/-- A record yielded by the generator (`item_id` omitted, see module header). -/
structure GenRecord where
  target : List (List ℚ)
  start : Option ℚ
  freq : String
deriving DecidableEq, Repr

/-- `mapM` over `Except`, written by explicit recursion: a generator yields
row records in order and aborts at the first raising row. -/
def exceptMapM (f : α → Except ε β) : List α → Except ε (List β)
  | [] => .ok []
  | a :: l =>
    match f a with
    | .error e => .error e
    | .ok b =>
      match exceptMapM f l with
      | .error e => .error e
      | .ok bs => .ok (b :: bs)

/-- Cut `flat` into `r` consecutive rows of `c` elements each
(row-major, as numpy reshape lays out a C-contiguous array). -/
def reshapeRows : Nat → Nat → List ℚ → List (List ℚ)
  | 0, _, _ => []
  | r + 1, c, flat => flat.take c :: reshapeRows r c (flat.drop c)

/-- `np.array(flat).reshape((r, -1))`: numpy infers the second dimension as
`flat.length / r`; it raises (here: `none`) when `r = 0` (the dimension
cannot be inferred from a zero product) or when `r` does not divide the
flat length. -/
def npReshape (flat : List ℚ) (r : Nat) : Option (List (List ℚ)) :=
  if r = 0 then none
  else if flat.length % r ≠ 0 then none
  else some (reshapeRows r (flat.length / r) flat)

/-- The `TIMESERIES_COLUMN` expression: concatenate the non-null value
columns' lists in column order (`pl.concat_list` over the
`pl.when(is_not_null).then(col)` columns; null columns are dropped). -/
def timeSeriesOf (columns : List String) (row : Row) : List ℚ :=
  ((columns.map row).filterMap id).flatten

/-- The `NON_NULL_COUNTER` expression: `pl.fold` starting from 0, adding the
`is_not_null` flag (cast to an integer) of each value column. -/
def nonNullCounter (columns : List String) (row : Row) : Nat :=
  ((columns.map row).map (fun v => if v.isSome then 1 else 0)).foldl (· + ·) 0

/-- The `START_COLUMN` expression: `pl.col(timestemp_column).list.first()`. -/
def startOf (timestempColumn : String) (row : Row) : Option ℚ :=
  (row timestempColumn).bind List.head?

/-- The per-row body of `generator_function`: build `start`, the concatenated
time series and the non-null counter, reshape, and yield one record.
A failing reshape raises out of the generator. -/
def processRow (timestempColumn : String) (columns : List String) (freq : String)
    (row : Row) : Except String GenRecord :=
  match npReshape (timeSeriesOf columns row) (nonNullCounter columns row) with
  | none => .error "ValueError: cannot reshape array"
  | some target => .ok { target := target, start := startOf timestempColumn row, freq := freq }

/-- `offset_int = int(rows * offset)` (the products are non-negative for the
inputs the validator admits, so Python truncation is the floor). -/
def offsetIndex (rows : Nat) (offset : ℚ) : ℤ :=
  ⌊(rows : ℚ) * offset⌋

/-- `length = int(rows * end) - offset_int`. -/
def sliceLength (rows : Nat) (offset end_ : ℚ) : ℤ :=
  ⌊(rows : ℚ) * end_⌋ - offsetIndex rows offset

/-- `lf.slice(offset_int, length)`: the rows
`[offset_int, offset_int + length)` of the shard. -/
def selectedRows (offset end_ : ℚ) (shard : Shard) : Shard :=
  (shard.drop (offsetIndex shard.length offset).toNat).take
    (sliceLength shard.length offset end_).toNat

/-- The per-shard loop body of `generator_function`: slice the shard's row
range and yield one record per selected row. -/
def generatorShard (timestempColumn : String) (columns : List String)
    (offset end_ : ℚ) (freq : String) (shard : Shard) : Except String (List GenRecord) :=
  exceptMapM (processRow timestempColumn columns freq) (selectedRows offset end_ shard)

/-- `generator_function(shards)`: iterate the shards in order, concatenating
their record streams. -/
def generatorFunction (timestempColumn : String) (columns : List String)
    (offset end_ : ℚ) (freq : String) (shards : List Shard) :
    Except String (List GenRecord) :=
  (exceptMapM (generatorShard timestempColumn columns offset end_ freq) shards).map List.flatten

/-- `_from_polars`: validate `offset` and `end` and return the generator
function. Validation happens before the generator closure is produced, hence
before any shard is read. -/
def _from_polars (timestempColumn : String) (columns : List String)
    (offset : ℚ) (end_ : ℚ) (freq : String) :
    Except String (List Shard → Except String (List GenRecord)) :=
  if offset > 1 ∨ offset < 0 then
    .error "Offset should be a positive integer or a float between 0 and 1."
  else if end_ > 1 ∨ end_ < 0 then
    .error "End should be a positive integer or a float between 0 and 1."
  else
    .ok (generatorFunction timestempColumn columns offset end_ freq)

/-- Whether an `Except` is in the error (raising) state. -/
def isErr : Except ε α → Bool
  | .error _ => true
  | .ok _ => false

/-! ## Builders and driver -/

/-- `env.CUSTOM_DATA_PATH`: the environment-configured storage root,
modelled as a fixed abstract value (no claim depends on it). -/
def CUSTOM_DATA_PATH : String := "custom_data"

/-- `uni2ts.data.dataset.SampleTimeSeriesType` (external enum). -/
inductive SampleTimeSeriesType where
  | NONE
  | UNIFORM
  | PROPORTIONAL
deriving DecidableEq, Repr

/-- A directory entry of `folder_path`, carrying the parsed rows of the file
it denotes (reading a parquet file is modelled as projecting `rows`). -/
structure FsEntry where
  name : String
  suffix : String
  is_file : Bool
  rows : Shard

/-- An external `Transformation` (opaque to this module): we only track which
factory produced it and with which arguments. -/
structure Transformation where
  tag : String
deriving DecidableEq, Repr

/-- The artifact `save_to_disk` writes: its location, the
`info.dataset_name` tag and the record stream that was materialised. -/
structure SavedDataset where
  path : String
  dataset_name : String
  records : List GenRecord

/-- `TimeSeriesDataset(...)` as built by the training loader; the indexer is
identified by the on-disk path it wraps. -/
structure TimeSeriesDataset where
  indexer : String
  transform : Transformation
  dataset_weight : ℚ
  sample_time_series : Option SampleTimeSeriesType

/-- `EvalDataset(...)` as built by the eval loader. -/
structure EvalDataset where
  windows : Option ℤ
  indexer : String
  transform : Transformation

/-- `SimplePolarsDatasetBuilder` (dataclass fields). -/
structure SimplePolarsDatasetBuilder where
  dataset : String
  timestemp_column : String
  columns : List String
  weight : ℚ := 1
  sample_time_series : Option SampleTimeSeriesType := some SampleTimeSeriesType.NONE
  storage_path : String := CUSTOM_DATA_PATH

/-- `SimplePolarsDatasetBuilder.build_dataset`: construct the generator (the
validator may raise), list the `.parquet` files of `folder_path`, materialise
the record stream and save it under `storage_path / dataset` tagged with the
dataset name. `num_workers` only selects a process count and is dropped by
the sequential model. -/
def SimplePolarsDatasetBuilder.build_dataset (self : SimplePolarsDatasetBuilder)
    (folder_path : List FsEntry) (offset end_ : ℚ) (freq : String) :
    Except String SavedDataset :=
  match _from_polars self.timestemp_column self.columns offset end_ freq with
  | .error e => .error e
  | .ok generator_func =>
    let polars_files := folder_path.filter (fun p => p.is_file && p.suffix == ".parquet")
    match generator_func (polars_files.map FsEntry.rows) with
    | .error e => .error e
    | .ok recs =>
      .ok { path := self.storage_path ++ "/" ++ self.dataset,
            dataset_name := self.dataset,
            records := recs }

/-- `SimplePolarsDatasetBuilder.load_dataset`: look the transform factory up
by dataset name (`transform_map[self.dataset]` raises `KeyError` when the key
is absent), call it with no arguments, and wrap the stored dataset. -/
def SimplePolarsDatasetBuilder.load_dataset (self : SimplePolarsDatasetBuilder)
    (transform_map : List (String × (Unit → Transformation))) :
    Except String TimeSeriesDataset :=
  match transform_map.lookup self.dataset with
  | none => .error "KeyError"
  | some factory =>
    .ok { indexer := self.storage_path ++ "/" ++ self.dataset,
          transform := factory (),
          dataset_weight := self.weight,
          sample_time_series := self.sample_time_series }

/-- `SimpleEvalDatasetBuilder` (dataclass fields; the windowing parameters
are all optional). -/
structure SimpleEvalDatasetBuilder where
  dataset : String
  timestemp_column : String
  columns : List String
  offset : Option ℤ
  windows : Option ℤ
  distance : Option ℤ
  prediction_length : Option ℤ
  context_length : Option ℤ
  patch_size : Option ℤ
  storage_path : String := CUSTOM_DATA_PATH

/-- `SimpleEvalDatasetBuilder.build_dataset`: textually the same body as the
training variant's `build_dataset`. -/
def SimpleEvalDatasetBuilder.build_dataset (self : SimpleEvalDatasetBuilder)
    (folder_path : List FsEntry) (offset end_ : ℚ) (freq : String) :
    Except String SavedDataset :=
  match _from_polars self.timestemp_column self.columns offset end_ freq with
  | .error e => .error e
  | .ok generator_func =>
    let polars_files := folder_path.filter (fun p => p.is_file && p.suffix == ".parquet")
    match generator_func (polars_files.map FsEntry.rows) with
    | .error e => .error e
    | .ok recs =>
      .ok { path := self.storage_path ++ "/" ++ self.dataset,
            dataset_name := self.dataset,
            records := recs }

/-- `SimpleEvalDatasetBuilder.load_dataset`: same `transform_map` lookup, but
the factory is called with the builder's windowing parameters
(offset, distance, prediction_length, context_length, patch_size), and the
result additionally carries the window count. -/
def SimpleEvalDatasetBuilder.load_dataset (self : SimpleEvalDatasetBuilder)
    (transform_map :
      List (String × (Option ℤ → Option ℤ → Option ℤ → Option ℤ → Option ℤ → Transformation))) :
    Except String EvalDataset :=
  match transform_map.lookup self.dataset with
  | none => .error "KeyError"
  | some factory =>
    .ok { windows := self.windows,
          indexer := self.storage_path ++ "/" ++ self.dataset,
          transform := factory self.offset self.distance self.prediction_length
            self.context_length self.patch_size }

/-- The parsed CLI arguments of the `build_datasets` driver. `freq` is a
string: argparse declares `--freq` with a string default and no `type=`. -/
structure Args where
  dataset_name : String
  folder_path : List FsEntry
  timestemp_column : String
  columns : List String
  split_ratio : ℚ
  freq : String

/-- Python `==` between a `str` and a `float`: the types are unrelated, so
equality is always `False` (no exception is raised). This models the driver's
guard `args.freq == 1.0`, where `args.freq` is a string. -/
def pyEqStrFloat (_s : String) (_x : ℚ) : Bool := false

/-- The `SimplePolarsDatasetBuilder(...)` the driver constructs. -/
def trainBuilderOf (args : Args) : SimplePolarsDatasetBuilder :=
  { dataset := args.dataset_name,
    timestemp_column := args.timestemp_column,
    columns := args.columns }

/-- The `SimpleEvalDatasetBuilder(...)` the driver constructs: the name gets
the `"_eval"` suffix and every windowing parameter is `None`. -/
def evalBuilderOf (args : Args) : SimpleEvalDatasetBuilder :=
  { dataset := args.dataset_name ++ "_eval",
    timestemp_column := args.timestemp_column,
    columns := args.columns,
    offset := none,
    windows := none,
    distance := none,
    prediction_length := none,
    context_length := none,
    patch_size := none }

/-- What one `build_datasets` run produces: the training artifact, and, when
the early return is not taken, the eval builder and its artifact. -/
structure BuildDatasetsResult where
  train : Except String SavedDataset
  evalBuilder : Option SimpleEvalDatasetBuilder
  evalDs : Option (Except String SavedDataset)

/-- `build_datasets(args)`: build the training split over `[0, split_ratio)`;
then — unless `args.freq == 1.0`, a comparison of the string `freq` against a
float, which is always false — build the `"_eval"` companion over
`[split_ratio, 1.0)`. -/
def build_datasets (args : Args) : BuildDatasetsResult :=
  let train := (trainBuilderOf args).build_dataset args.folder_path 0 args.split_ratio args.freq
  if pyEqStrFloat args.freq 1 then
    { train := train, evalBuilder := none, evalDs := none }
  else
    { train := train,
      evalBuilder := some (evalBuilderOf args),
      evalDs := some ((evalBuilderOf args).build_dataset args.folder_path args.split_ratio 1 args.freq) }

/-! ## Concrete fixtures for witnesses -/

/-- A concrete source row: timestamp column `"t"` holds `[i]`, value column
`"a"` holds `[i, i]`, every other column is null. -/
def wRow (i : ℚ) : Row := fun c =>
  if c = "t" then some [i] else if c = "a" then some [i, i] else none

/-- The record the generator derives from `wRow i` with columns `["a"]`. -/
def wRec (i : ℚ) : GenRecord :=
  { target := [[i, i]], start := some i, freq := "H" }

/-- A concrete 10-row shard of `wRow`s. -/
def wShard10 : Shard := (List.range 10).map (fun i => wRow (i : ℚ))

/-- A row with two non-null value columns (`"a"`, `"b"`, three elements each)
and a null column `"c"`. -/
def wRow2 : Row := fun c =>
  if c = "t" then some [7]
  else if c = "a" then some [1, 2, 3]
  else if c = "b" then some [4, 5, 6]
  else none

/-- A row whose value columns are all null. -/
def wRowAllNull : Row := fun c => if c = "t" then some [0] else none

/-- Driver arguments with `split_ratio = 1.0` (and the CLI's default
`freq="H"`). -/
def wArgsFullSplit : Args :=
  { dataset_name := "d", folder_path := [], timestemp_column := "t",
    columns := ["a"], split_ratio := 1, freq := "H" }

/-! ## Helper lemmas -/

theorem exceptMapM_ok_length (f : α → Except ε β) (l : List α) (l' : List β)
    (h : exceptMapM f l = .ok l') : l'.length = l.length := by
  induction l generalizing l' with
  | nil => cases h; rfl
  | cons a t ih =>
    unfold exceptMapM at h
    cases hfa : f a with
    | error e => rw [hfa] at h; cases h
    | ok b =>
      rw [hfa] at h
      cases hmt : exceptMapM f t with
      | error e => rw [hmt] at h; cases h
      | ok bs => rw [hmt] at h; cases h; simp [ih bs hmt]

theorem exceptMapM_ok_mem (f : α → Except ε β) (l : List α) (l' : List β)
    (h : exceptMapM f l = .ok l') : ∀ b ∈ l', ∃ a ∈ l, f a = .ok b := by
  induction l generalizing l' with
  | nil => cases h; intro b hb; cases hb
  | cons a t ih =>
    unfold exceptMapM at h
    cases hfa : f a with
    | error e => rw [hfa] at h; cases h
    | ok b =>
      rw [hfa] at h
      cases hmt : exceptMapM f t with
      | error e => rw [hmt] at h; cases h
      | ok bs =>
        rw [hmt] at h; cases h
        intro x hx
        rcases List.mem_cons.mp hx with hx | hx
        · exact ⟨a, List.mem_cons_self _ _, hx ▸ hfa⟩
        · obtain ⟨a', ha', hfa'⟩ := ih bs hmt x hx
          exact ⟨a', List.mem_cons_of_mem _ ha', hfa'⟩

theorem foldl_add_indicator (l : List (Option (List ℚ))) (n : ℕ) :
    (l.map (fun v => if v.isSome then 1 else 0)).foldl (· + ·) n
      = n + (l.filterMap id).length := by
  induction l generalizing n with
  | nil => simp
  | cons a t ih =>
    cases a
    all_goals simp [ih]
    all_goals omega

/-- The fold of `is_not_null` flags counts exactly the non-null columns. -/
theorem nonNullCounter_eq (columns : List String) (row : Row) :
    nonNullCounter columns row = ((columns.map row).filterMap id).length := by
  unfold nonNullCounter
  simpa using foldl_add_indicator (columns.map row) 0

theorem flatten_length_const (L : List (List ℚ)) (c : ℕ)
    (h : ∀ x ∈ L, x.length = c) : L.flatten.length = L.length * c := by
  induction L with
  | nil => simp
  | cons x t ih =>
    simp only [List.flatten_cons, List.length_append, List.length_cons]
    rw [h x (List.mem_cons_self _ _), ih (fun y hy => h y (List.mem_cons_of_mem _ hy))]
    ring

theorem reshapeRows_length (r c : ℕ) (flat : List ℚ) :
    (reshapeRows r c flat).length = r := by
  induction r generalizing flat with
  | zero => rfl
  | succ r ih => simp [reshapeRows, ih]

theorem reshapeRows_mem_length (r c : ℕ) (flat : List ℚ)
    (h : flat.length = r * c) : ∀ t ∈ reshapeRows r c flat, t.length = c := by
  induction r generalizing flat with
  | zero => intro t ht; cases ht
  | succ r ih =>
    intro t ht
    rw [Nat.succ_mul] at h
    simp only [reshapeRows] at ht
    rcases List.mem_cons.mp ht with rfl | ht
    · simp only [List.length_take]
      omega
    · exact ih (flat.drop c) (by rw [List.length_drop, h]; omega) t ht

theorem offsetIndex_nonneg (rows : ℕ) (offset : ℚ) (h : 0 ≤ offset) :
    0 ≤ offsetIndex rows offset :=
  Int.floor_nonneg.mpr (mul_nonneg (Nat.cast_nonneg rows) h)

theorem offsetIndex_mono (rows : ℕ) (offset end_ : ℚ) (h : offset ≤ end_) :
    offsetIndex rows offset ≤ offsetIndex rows end_ :=
  Int.floor_le_floor (mul_le_mul_of_nonneg_left h (Nat.cast_nonneg rows))

theorem offsetIndex_le_rows (rows : ℕ) (end_ : ℚ) (h : end_ ≤ 1) :
    offsetIndex rows end_ ≤ (rows : ℤ) := by
  have h1 : (rows : ℚ) * end_ ≤ (rows : ℚ) := by
    calc (rows : ℚ) * end_ ≤ (rows : ℚ) * 1 :=
          mul_le_mul_of_nonneg_left h (Nat.cast_nonneg rows)
      _ = (rows : ℚ) := mul_one _
  calc offsetIndex rows end_ ≤ ⌊(rows : ℚ)⌋ := Int.floor_le_floor h1
    _ = (rows : ℤ) := Int.floor_natCast rows

theorem selectedRows_length (offset end_ : ℚ) (shard : Shard)
    (h0 : 0 ≤ offset) (h1 : offset ≤ end_) (h2 : end_ ≤ 1) :
    ((selectedRows offset end_ shard).length : ℤ)
      = sliceLength shard.length offset end_ := by
  have ha := offsetIndex_nonneg shard.length offset h0
  have hb := offsetIndex_mono shard.length offset end_ h1
  have hc := offsetIndex_le_rows shard.length end_ h2
  have hs : sliceLength shard.length offset end_
      = offsetIndex shard.length end_ - offsetIndex shard.length offset := rfl
  rw [selectedRows, List.length_take, List.length_drop, hs]
  omega

/-- `offset = 0.0, end = 1.0` selects every row of the shard. -/
theorem selectedRows_full (shard : Shard) : selectedRows 0 1 shard = shard := by
  unfold selectedRows sliceLength offsetIndex
  simp [Int.floor_natCast]

theorem selectedRows_getElem (offset end_ : ℚ) (shard : Shard) (i : ℕ)
    (hi : i < (sliceLength shard.length offset end_).toNat) :
    (selectedRows offset end_ shard)[i]?
      = shard[(offsetIndex shard.length offset).toNat + i]? := by
  unfold selectedRows
  rw [List.getElem?_take_of_lt hi, List.getElem?_drop]

/-- A record produced by `processRow` carries the construction-time `freq`
verbatim and the first element of the row's timestamp list as `start`. -/
theorem processRow_ok_fields (ts : String) (cols : List String) (freq : String)
    (row : Row) (r : GenRecord) (h : processRow ts cols freq row = .ok r) :
    r.freq = freq ∧ r.start = startOf ts row := by
  unfold processRow at h
  cases hnp : npReshape (timeSeriesOf cols row) (nonNullCounter cols row) with
  | none => rw [hnp] at h; cases h
  | some t => rw [hnp] at h; cases h; exact ⟨rfl, rfl⟩

theorem lookup_eq_none_iff {β : Type} (l : List (String × β)) (a : String) :
    l.lookup a = none ↔ a ∉ l.map Prod.fst := by
  induction l with
  | nil => simp
  | cons p l ih =>
    obtain ⟨k, v⟩ := p
    by_cases h : k = a
    · subst h
      simp [List.lookup]
    · have hba : (a == k) = false := beq_false_of_ne (Ne.symm h)
      simp [List.lookup, hba, ih, Ne.symm h]

/-! ## Claims -/

/-- C1: the claim says that with `split_ratio = 1.0` no companion eval dataset
is built; the code's early return tests `args.freq == 1.0` — comparing the
string `freq` against a float, which is always false — so the `"_eval"`
dataset is still built and written (here: with `split_ratio = 1.0`, default
`freq = "H"`, the driver writes a dataset named `"d_eval"`). This evaluates
the code at the failing input of the code_bug verdict. -/
theorem c1_eval_built_despite_full_split :
    wArgsFullSplit.split_ratio = 1 ∧
    (build_datasets wArgsFullSplit).evalBuilder = some (evalBuilderOf wArgsFullSplit) ∧
    (build_datasets wArgsFullSplit).evalDs
      = some (.ok { path := "custom_data/d_eval", dataset_name := "d_eval", records := [] }) :=
  ⟨rfl, rfl, rfl⟩

/-- C2: the claim says a row whose value columns are all null must not make
the generator raise; on such a row the non-null counter is 0 and the reshape
into `(0, -1)` fails, so `processRow` raises. This evaluates the code at the
failing input of the code_bug verdict. -/
theorem c2_all_null_row_raises :
    nonNullCounter ["a", "b"] wRowAllNull = 0 ∧
    processRow "t" ["a", "b"] "H" wRowAllNull
      = .error "ValueError: cannot reshape array" :=
  ⟨rfl, rfl⟩

/-- C3: for `offset, end ∈ [0,1]` with `offset ≤ end`, the generator selects
exactly the row range `[⌊rows*offset⌋, ⌊rows*offset⌋ + (⌊rows*end⌋ -
⌊rows*offset⌋))` (element-wise), a successful run yields exactly
`⌊rows*end⌋ - ⌊rows*offset⌋` records for the file, and `offset = 0.0,
end = 1.0` selects all rows. -/
theorem c3_slice_row_count (ts : String) (cols : List String)
    (offset end_ : ℚ) (freq : String) (shard : Shard) (recs : List GenRecord)
    (h0 : 0 ≤ offset) (h1 : offset ≤ end_) (h2 : end_ ≤ 1)
    (hok : generatorShard ts cols offset end_ freq shard = .ok recs) :
    (∀ i : ℕ, i < (sliceLength shard.length offset end_).toNat →
      (selectedRows offset end_ shard)[i]?
        = shard[(offsetIndex shard.length offset).toNat + i]?) ∧
    (recs.length : ℤ) = sliceLength shard.length offset end_ ∧
    selectedRows 0 1 shard = shard := by
  refine ⟨fun i hi => selectedRows_getElem offset end_ shard i hi, ?_, selectedRows_full shard⟩
  have hl := exceptMapM_ok_length (processRow ts cols freq) (selectedRows offset end_ shard) recs hok
  rw [hl]
  exact selectedRows_length offset end_ shard h0 h1 h2

/-- Witness for C3 at a concrete two-row shard with `offset = 0, end = 1`. -/
theorem c3_witness :
    (∀ i : ℕ, i < (sliceLength 2 0 1).toNat →
      (selectedRows 0 1 [wRow 0, wRow 1])[i]?
        = [wRow 0, wRow 1][(offsetIndex 2 0).toNat + i]?) ∧
    (([wRec 0, wRec 1] : List GenRecord).length : ℤ) = sliceLength 2 0 1 ∧
    selectedRows 0 1 [wRow 0, wRow 1] = [wRow 0, wRow 1] :=
  c3_slice_row_count "t" ["a"] 0 1 "H" [wRow 0, wRow 1] [wRec 0, wRec 1]
    (by norm_num) (by norm_num) (by norm_num) (by with_unfolding_all rfl)

/-- C4: a selected row with exactly `k ≥ 1` non-null value columns, each a
sequence of the same length `L`, yields a record whose `target` matrix has
shape `(k, L)`: `k` rows (nulls excluded, not zero-filled) of `L` entries. -/
theorem c4_target_shape (ts : String) (cols : List String) (freq : String)
    (row : Row) (k L : ℕ)
    (hk : ((cols.map row).filterMap id).length = k)
    (hL : ∀ v ∈ (cols.map row).filterMap id, v.length = L)
    (hk0 : 0 < k) :
    ∃ r, processRow ts cols freq row = .ok r ∧
      r.target.length = k ∧ ∀ t ∈ r.target, t.length = L := by
  have hcnt : nonNullCounter cols row = k := by rw [nonNullCounter_eq, hk]
  have hflat : (timeSeriesOf cols row).length = k * L := by
    rw [timeSeriesOf, flatten_length_const _ L hL, hk]
  have hne : k ≠ 0 := Nat.pos_iff_ne_zero.mp hk0
  have hres : npReshape (timeSeriesOf cols row) (nonNullCounter cols row)
      = some (reshapeRows k L (timeSeriesOf cols row)) := by
    rw [hcnt]
    unfold npReshape
    rw [hflat, if_neg hne, if_neg (by simp [Nat.mul_mod_right]),
      Nat.mul_div_cancel_left L hk0]
  refine ⟨⟨reshapeRows k L (timeSeriesOf cols row), startOf ts row, freq⟩, ?_, ?_, ?_⟩
  · unfold processRow
    rw [hres]
  · exact reshapeRows_length k L _
  · exact reshapeRows_mem_length k L _ hflat

/-- Witness for C4 at a concrete row with two non-null three-element columns
and one null column. -/
theorem c4_witness :
    ∃ r, processRow "t" ["a", "b", "c"] "H" wRow2 = .ok r ∧
      r.target.length = 2 ∧ ∀ t ∈ r.target, t.length = 3 :=
  c4_target_shape "t" ["a", "b", "c"] "H" wRow2 2 3 (by decide) (by decide) (by decide)

/-- C5: generator construction raises a validation error iff `offset` or
`end` falls outside `[0, 1]`; the check happens in `_from_polars` before the
generator (and hence any file read) is produced; `0.0` and `1.0` are
accepted. -/
theorem c5_validation_iff (ts : String) (cols : List String) (freq : String) :
    (∀ offset end_ : ℚ,
      isErr (_from_polars ts cols offset end_ freq) = true ↔
        (offset < 0 ∨ 1 < offset ∨ end_ < 0 ∨ 1 < end_)) ∧
    isErr (_from_polars ts cols 0 0 freq) = false ∧
    isErr (_from_polars ts cols 0 1 freq) = false ∧
    isErr (_from_polars ts cols 1 1 freq) = false := by
  refine ⟨?_, rfl, rfl, rfl⟩
  intro offset end_
  unfold _from_polars
  split_ifs with ha hb
  · refine ⟨fun _ => ?_, fun _ => rfl⟩
    rcases ha with h | h
    · exact Or.inr (Or.inl h)
    · exact Or.inl h
  · refine ⟨fun _ => ?_, fun _ => rfl⟩
    rcases hb with h | h
    · exact Or.inr (Or.inr (Or.inr h))
    · exact Or.inr (Or.inr (Or.inl h))
  · constructor
    · intro hcontra
      exact absurd hcontra (by simp [isErr])
    · intro h
      push_neg at ha hb
      exfalso
      rcases h with h | h | h | h
      exacts [absurd h (not_lt.mpr ha.2), absurd h (not_lt.mpr ha.1),
        absurd h (not_lt.mpr hb.2), absurd h (not_lt.mpr hb.1)]

/-- C6: `build_datasets` builds the training split over `[0, split_ratio)`
and the companion eval split over `[split_ratio, 1.0)`, named by appending
`"_eval"` and with every windowing parameter unset; on a concrete 10-row
file with `split_ratio = 0.8` (i.e. `4/5`), the training range yields the
records of rows 0–7 and the eval range those of rows 8–9. -/
theorem c6_split_orchestration :
    (∀ args : Args,
      (build_datasets args).train
          = (trainBuilderOf args).build_dataset args.folder_path 0 args.split_ratio args.freq ∧
        (build_datasets args).evalBuilder = some (evalBuilderOf args) ∧
        (evalBuilderOf args).dataset = args.dataset_name ++ "_eval" ∧
        (evalBuilderOf args).offset = none ∧
        (evalBuilderOf args).windows = none ∧
        (evalBuilderOf args).distance = none ∧
        (evalBuilderOf args).prediction_length = none ∧
        (evalBuilderOf args).context_length = none ∧
        (evalBuilderOf args).patch_size = none ∧
        (build_datasets args).evalDs
          = some ((evalBuilderOf args).build_dataset args.folder_path args.split_ratio 1 args.freq)) ∧
    generatorShard "t" ["a"] 0 (4 / 5) "H" wShard10
        = .ok [wRec 0, wRec 1, wRec 2, wRec 3, wRec 4, wRec 5, wRec 6, wRec 7] ∧
    generatorShard "t" ["a"] (4 / 5) 1 "H" wShard10 = .ok [wRec 8, wRec 9] := by
  refine ⟨fun args => ⟨rfl, rfl, rfl, rfl, rfl, rfl, rfl, rfl, rfl, rfl⟩, ?_, ?_⟩
  · with_unfolding_all rfl
  · with_unfolding_all rfl

/-- C7: every record the generator yields carries the construction-time
`freq` verbatim, and its `start` is the first element of the timestamp
column's list value of the source row it was derived from. -/
theorem c7_freq_and_start (ts : String) (cols : List String) (offset end_ : ℚ)
    (freq : String) (shards : List Shard) (recs : List GenRecord)
    (hok : generatorFunction ts cols offset end_ freq shards = .ok recs) :
    ∀ r ∈ recs, r.freq = freq ∧
      ∃ shard ∈ shards, ∃ row ∈ selectedRows offset end_ shard,
        processRow ts cols freq row = .ok r ∧ r.start = startOf ts row := by
  unfold generatorFunction at hok
  cases hms : exceptMapM (generatorShard ts cols offset end_ freq) shards with
  | error e => rw [hms] at hok; cases hok
  | ok ls =>
    rw [hms] at hok
    simp only [Except.map] at hok
    cases hok
    intro r hr
    obtain ⟨l, hl, hrl⟩ := List.mem_flatten.mp hr
    obtain ⟨shard, hshard, hsh⟩ :=
      exceptMapM_ok_mem (generatorShard ts cols offset end_ freq) shards ls hms l hl
    obtain ⟨row, hrow, hpr⟩ :=
      exceptMapM_ok_mem (processRow ts cols freq) (selectedRows offset end_ shard) l hsh r hrl
    obtain ⟨hf, hs⟩ := processRow_ok_fields ts cols freq row r hpr
    exact ⟨hf, shard, hshard, row, hrow, hpr, hs⟩

/-- Witness for C7 at a concrete one-shard, one-row input. -/
theorem c7_witness :
    (wRec 5).freq = "H" ∧
      ∃ shard ∈ [[wRow 5]], ∃ row ∈ selectedRows 0 1 shard,
        processRow "t" ["a"] "H" row = .ok (wRec 5) ∧ (wRec 5).start = startOf "t" row :=
  c7_freq_and_start "t" ["a"] 0 1 "H" [[wRow 5]] [wRec 5]
    (by with_unfolding_all rfl) (wRec 5) (by with_unfolding_all decide)

/-- C8: both `load_dataset` variants fail with a lookup error exactly when
the builder's dataset name is absent among the keys of the transform-factory
map (so no default transform is ever substituted). -/
theorem c8_load_lookup_error_iff :
    (∀ (b : SimplePolarsDatasetBuilder) (m : List (String × (Unit → Transformation))),
      isErr (b.load_dataset m) = true ↔ b.dataset ∉ m.map Prod.fst) ∧
    (∀ (b : SimpleEvalDatasetBuilder)
        (m : List (String ×
          (Option ℤ → Option ℤ → Option ℤ → Option ℤ → Option ℤ → Transformation))),
      isErr (b.load_dataset m) = true ↔ b.dataset ∉ m.map Prod.fst) := by
  constructor
  · intro b m
    rw [← lookup_eq_none_iff m b.dataset]
    unfold SimplePolarsDatasetBuilder.load_dataset
    cases h : List.lookup b.dataset m <;> simp [isErr]
  · intro b m
    rw [← lookup_eq_none_iff m b.dataset]
    unfold SimpleEvalDatasetBuilder.load_dataset
    cases h : List.lookup b.dataset m <;> simp [isErr]

/-- C9: the two builders' `build_dataset` methods agree whenever the builders
share dataset name, timestamp column, value columns and storage path: same
file listing, same record stream, same saved artifact at the same path. -/
theorem c9_builders_equivalent (b1 : SimplePolarsDatasetBuilder)
    (b2 : SimpleEvalDatasetBuilder) (folder : List FsEntry)
    (offset end_ : ℚ) (freq : String)
    (hd : b1.dataset = b2.dataset) (ht : b1.timestemp_column = b2.timestemp_column)
    (hc : b1.columns = b2.columns) (hs : b1.storage_path = b2.storage_path) :
    b1.build_dataset folder offset end_ freq = b2.build_dataset folder offset end_ freq := by
  unfold SimplePolarsDatasetBuilder.build_dataset SimpleEvalDatasetBuilder.build_dataset
  rw [hd, ht, hc, hs]

/-- Witness for C9 at concrete matching builders. -/
theorem c9_witness :
    SimplePolarsDatasetBuilder.build_dataset
        { dataset := "d", timestemp_column := "t", columns := ["a"] } [] 0 1 "H"
      = SimpleEvalDatasetBuilder.build_dataset
        { dataset := "d", timestemp_column := "t", columns := ["a"], offset := none,
          windows := none, distance := none, prediction_length := none,
          context_length := none, patch_size := none } [] 0 1 "H" :=
  c9_builders_equivalent _ _ [] 0 1 "H" rfl rfl rfl rfl

/-- C10 counterexample: the claim asserts the computed slice length is
negative for every `offset > end` in `[0,1]`; at `offset = 3/20,
end = 1/10` with a 10-row file the two floors coincide, so the length is
`0`, not negative (construction still succeeds, as the claim also says). -/
theorem c10_counterexample :
    (0:ℚ) ≤ 1/10 ∧ (1/10:ℚ) < 3/20 ∧ (3/20:ℚ) ≤ 1 ∧
    isErr (_from_polars "t" ["a"] (3/20) (1/10) "H") = false ∧
    ¬ sliceLength 10 (3/20) (1/10) < 0 :=
  ⟨by norm_num, by norm_num, by norm_num, by with_unfolding_all rfl,
    by with_unfolding_all decide⟩

/-- C10 (amended): construction performs no `offset ≤ end` check — for every
`offset, end ∈ [0,1]` with `offset > end` it succeeds without a validation
error — and the computed slice length `⌊rows*end⌋ - ⌊rows*offset⌋` is
non-positive (negative exactly when the floors differ), passed on to the
row-range slice unrejected. -/
theorem c10_no_offset_le_end_check (ts : String) (cols : List String)
    (freq : String) (offset end_ : ℚ)
    (h0 : 0 ≤ end_) (h1 : end_ < offset) (h2 : offset ≤ 1) :
    isErr (_from_polars ts cols offset end_ freq) = false ∧
    ∀ rows : ℕ, sliceLength rows offset end_ ≤ 0 := by
  constructor
  · have ha : ¬(offset > 1 ∨ offset < 0) := by
      push_neg
      exact ⟨h2, le_trans h0 h1.le⟩
    have hb : ¬(end_ > 1 ∨ end_ < 0) := by
      push_neg
      exact ⟨le_trans h1.le h2, h0⟩
    unfold _from_polars
    rw [if_neg ha, if_neg hb]
    rfl
  · intro rows
    have hm := offsetIndex_mono rows end_ offset h1.le
    have hs : sliceLength rows offset end_
        = offsetIndex rows end_ - offsetIndex rows offset := rfl
    omega

/-- Witness for C10's amended theorem at `offset = 3/20, end = 1/10`. -/
theorem c10_witness :
    isErr (_from_polars "t" ["a"] (3/20) (1/10) "H") = false ∧
    ∀ rows : ℕ, sliceLength rows (3/20) (1/10) ≤ 0 :=
  c10_no_offset_le_end_check "t" ["a"] "H" (3/20) (1/10)
    (by norm_num) (by norm_num) (by norm_num)
